import Mathlib

/-!
Verification of the edit-history state machine and canvas-geometry mapping of a
browser-based photo editing client (`App.tsx`, `ExpandPanel`, panels).

Shallow embedding conventions:
* An image `File` is opaque in the app (identity is positional in the history),
  so a `Snapshot` is a token (`Nat`).
* Screen and image coordinates (JS doubles) are modelled as rationals `ℚ`;
  `Math.round` becomes `jsRound` (round half towards positive infinity, which
  is the JS semantics).
* The cursor `historyIndex` is an integer (`ℤ`), because the source uses `-1`
  as the empty-history sentinel.
* Each React `useState` cell that the claims touch becomes a field of
  `AppState`; a handler becomes a pure function `AppState → AppState`.
* An `async` handler that awaits the external AI collaborator is collapsed to
  one step (the scheduling model is single-threaded): the settled outcome of
  the collaborator call is passed in as a `CollabResult` oracle, and the
  handler returns the post-settlement state together with a `Bool` recording
  whether the collaborator was actually invoked.
-/

namespace Nano

/-- A snapshot: one immutable image artifact in the edit history.  The app never
inspects the bytes when managing history, so a token suffices. -/
abbrev Snapshot := Nat

/-- The five editing tools (`type Tab` in App.tsx). -/
inductive Tab where
  | retouch
  | adjust
  | filters
  | expand
  | crop
deriving DecidableEq

/-- `type ExpandRect = { top; left; width; height }` (App.tsx line 39). -/
structure ExpandRect where
  top : ℚ
  left : ℚ
  width : ℚ
  height : ℚ
deriving DecidableEq

/-- A crop rectangle (react-image-crop `PixelCrop`); only its presence/absence
matters to the claims. -/
structure PixelCrop where
  x : ℚ
  y : ℚ
  width : ℚ
  height : ℚ
deriving DecidableEq

/-- `type DragState = { handle; initialRect; initialMouseX; initialMouseY }`
(App.tsx line 40).  The handle is one of the strings n, s, e, w, ne, nw, se, sw. -/
structure DragState where
  handle : String
  initialRect : ExpandRect
  initialMouseX : ℚ
  initialMouseY : ℚ
deriving DecidableEq

/-- A DOM bounding rectangle as returned by `getBoundingClientRect()`. -/
structure DOMRect where
  top : ℚ
  left : ℚ
  width : ℚ
  height : ℚ
deriving DecidableEq

/-- Natural `{width, height}` of the current snapshot (`imageDimensions`). -/
structure Dimensions where
  width : ℚ
  height : ℚ
deriving DecidableEq

/-- The `useState` cells of the `App` component that the history and geometry
logic reads or writes (App.tsx lines 44-70). -/
structure AppState where
  history : List Snapshot
  historyIndex : ℤ
  prompt : String
  isLoading : Bool
  isUpscaling : Bool
  error : Option String
  activeTab : Tab
  crop : Option PixelCrop
  completedCrop : Option PixelCrop
  expandRect : Option ExpandRect
  dragState : Option DragState
  retouchReferenceImage : Option Snapshot
  imageDimensions : Option Dimensions
deriving DecidableEq

/-- `const currentImage = history[historyIndex] ?? null` (App.tsx line 76).
A JS array read at a negative or out-of-range index yields `undefined`. -/
def AppState.currentImage (s : AppState) : Option Snapshot :=
  if 0 ≤ s.historyIndex then s.history.get? s.historyIndex.toNat else none

/-- `const canUndo = historyIndex > 0` (App.tsx line 201). -/
def canUndo (s : AppState) : Bool :=
  decide (0 < s.historyIndex)

/-- `const canRedo = historyIndex < history.length - 1` (App.tsx line 202). -/
def canRedo (s : AppState) : Bool :=
  decide (s.historyIndex < (s.history.length : ℤ) - 1)

/-- `addImageToHistory` (App.tsx lines 204-213): truncate after the cursor,
append, move the cursor to the new end, and clear the transient tool state.
`history.slice(0, historyIndex + 1)` is `take (historyIndex + 1)`; for every
reachable state `historyIndex ≥ -1`, where `Int.toNat` clamps exactly as JS
`slice` does at `end = 0`. -/
def addImageToHistory (newImageFile : Snapshot) (s : AppState) : AppState :=
  let newHistory := s.history.take (s.historyIndex + 1).toNat ++ [newImageFile]
  { s with
    history := newHistory
    historyIndex := (newHistory.length : ℤ) - 1
    crop := none
    completedCrop := none
    expandRect := none }

/-- `handleImageUpload` (App.tsx lines 215-224): replace the whole history with
the uploaded file. -/
def handleImageUpload (file : Snapshot) (s : AppState) : AppState :=
  { s with
    error := none
    history := [file]
    historyIndex := 0
    activeTab := Tab.retouch
    crop := none
    completedCrop := none
    expandRect := none
    imageDimensions := none }

/-- `handleUndo` (App.tsx lines 417-421). -/
def handleUndo (s : AppState) : AppState :=
  if canUndo s then { s with historyIndex := s.historyIndex - 1 } else s

/-- `handleRedo` (App.tsx lines 423-427). -/
def handleRedo (s : AppState) : AppState :=
  if canRedo s then { s with historyIndex := s.historyIndex + 1 } else s

/-- `handleReset` (App.tsx lines 429-434). -/
def handleReset (s : AppState) : AppState :=
  if 0 < s.history.length then { s with historyIndex := 0, error := none } else s

/-- `handleUploadNew` (App.tsx lines 436-443). -/
def handleUploadNew (s : AppState) : AppState :=
  { s with
    history := []
    historyIndex := -1
    error := none
    prompt := ""
    retouchReferenceImage := none
    imageDimensions := none }

/-- The settled outcome of a call to the external AI collaborator: either a new
image file (already converted by `dataURLtoFile`) or a rejection message. -/
inductive CollabResult where
  | ok (img : Snapshot)
  | error (msg : String)
deriving DecidableEq

/-- `handleGenerate` (App.tsx lines 231-257).  Returns the state after the
action settles, and whether the collaborator was invoked. -/
def handleGenerate (resp : CollabResult) (s : AppState) : AppState × Bool :=
  if s.currentImage = none then
    ({ s with error := some "No image loaded to edit." }, false)
  else if s.prompt.trim = "" then
    ({ s with error := some "Please enter a description for your edit." }, false)
  else
    let busy := { s with isLoading := true, error := none }
    match resp with
    | CollabResult.ok img =>
        ({ addImageToHistory img busy with
            retouchReferenceImage := none, isLoading := false }, true)
    | CollabResult.error msg =>
        ({ busy with
            error := some ("Failed to generate the image. " ++ msg)
            isLoading := false }, true)

/-- `handleApplyFilter` (App.tsx lines 274-294). -/
def handleApplyFilter (filterPrompt : String) (resp : CollabResult)
    (s : AppState) : AppState × Bool :=
  if s.currentImage = none then
    ({ s with error := some "No image loaded to apply a filter to." }, false)
  else
    let busy := { s with isLoading := true, error := none }
    match resp with
    | CollabResult.ok img =>
        ({ addImageToHistory img busy with isLoading := false }, true)
    | CollabResult.error msg =>
        ({ busy with
            error := some ("Failed to apply the filter. " ++ msg)
            isLoading := false }, true)

/-- `handleApplyAdjustment` (App.tsx lines 296-316). -/
def handleApplyAdjustment (adjustmentPrompt : String) (resp : CollabResult)
    (s : AppState) : AppState × Bool :=
  if s.currentImage = none then
    ({ s with error := some "No image loaded to apply an adjustment to." }, false)
  else
    let busy := { s with isLoading := true, error := none }
    match resp with
    | CollabResult.ok img =>
        ({ addImageToHistory img busy with isLoading := false }, true)
    | CollabResult.error msg =>
        ({ busy with
            error := some ("Failed to apply the adjustment. " ++ msg)
            isLoading := false }, true)

/-- `handleUpscale` (App.tsx lines 474-490). -/
def handleUpscale (resp : CollabResult) (s : AppState) : AppState × Bool :=
  if s.currentImage = none then (s, false)
  else
    let busy := { s with isUpscaling := true, error := none }
    match resp with
    | CollabResult.ok img =>
        ({ addImageToHistory img busy with isUpscaling := false }, true)
    | CollabResult.error msg =>
        ({ busy with
            error := some ("Failed to upscale image. " ++ msg)
            isUpscaling := false }, true)

/-- JavaScript `Math.round`: round half towards positive infinity. -/
def jsRound (x : ℚ) : ℚ :=
  ((⌊x + 1 / 2⌋ : ℤ) : ℚ)

/-- The uniform displayed-to-natural scale factor
`imageDimensions.width / displayedImageRect.width` (App.tsx line 372,
ExpandPanel line 413). -/
def scaleFactor (natural : Dimensions) (displayed : DOMRect) : ℚ :=
  natural.width / displayed.width

/-- `handleApplyExpand` (App.tsx lines 362-401).  The guard on line 363 also
checks the two DOM refs, which are always populated when the panel is shown, so
they appear here as the `displayedImageRect` / `containerRect` inputs. -/
def handleApplyExpand (resp : CollabResult) (displayedImageRect : DOMRect)
    (containerRect : DOMRect) (s : AppState) : AppState × Bool :=
  match s.currentImage, s.expandRect, s.imageDimensions with
  | some _, some rect, some dims =>
      let scale := dims.width / displayedImageRect.width
      let targetWidth := jsRound (rect.width * scale)
      let targetHeight := jsRound (rect.height * scale)
      let imageOffsetX :=
        jsRound ((displayedImageRect.left - (containerRect.left + rect.left)) * scale)
      let imageOffsetY :=
        jsRound ((displayedImageRect.top - (containerRect.top + rect.top)) * scale)
      if targetWidth ≤ dims.width ∧ targetHeight ≤ dims.height then
        ({ s with
            error := some "Please expand the frame outwards to generate a larger image." },
          false)
      else
        let busy := { s with isLoading := true, error := none }
        match resp with
        | CollabResult.ok img =>
            ({ addImageToHistory img busy with isLoading := false }, true)
        | CollabResult.error msg =>
            ({ busy with
                error := some ("Failed to expand the image. " ++ msg)
                isLoading := false }, true)
  | _, _, _ =>
      ({ s with
          error := some "Could not determine expansion dimensions. Please try selecting the expand tool again." },
        false)

/-- `ExpandPanel`'s `newDimensions` memo (part_001 lines 408-418). -/
def newDimensions (imageDimensions : Option Dimensions)
    (expandRect : Option ExpandRect) (displayedImageRect : Option DOMRect) :
    Option (ℚ × ℚ) :=
  match imageDimensions, expandRect, displayedImageRect with
  | some dims, some rect, some disp =>
      let scale := dims.width / disp.width
      some (jsRound (rect.width * scale), jsRound (rect.height * scale))
  | _, _, _ => none

/-- `handleMouseMove` (App.tsx lines 107-153): one pointer-move step of an
expand drag.  Inputs: the drag state captured at pointer-down, the pointer's
current client position, and the current bounding rectangles of the displayed
image and its container.  Output: the new expand rectangle. -/
def handleMouseMove (drag : DragState) (clientX clientY : ℚ)
    (imgRect containerRect : DOMRect) : ExpandRect :=
  let deltaX := clientX - drag.initialMouseX
  let deltaY := clientY - drag.initialMouseY
  let imgTop := imgRect.top - containerRect.top
  let imgLeft := imgRect.left - containerRect.left
  let imgRight := imgLeft + imgRect.width
  let imgBottom := imgTop + imgRect.height
  let newTop :=
    if drag.handle.contains 'n' then drag.initialRect.top + deltaY
    else drag.initialRect.top
  let newBottom :=
    if drag.handle.contains 's' then drag.initialRect.top + drag.initialRect.height + deltaY
    else drag.initialRect.top + drag.initialRect.height
  let newLeft :=
    if drag.handle.contains 'w' then drag.initialRect.left + deltaX
    else drag.initialRect.left
  let newRight :=
    if drag.handle.contains 'e' then drag.initialRect.left + drag.initialRect.width + deltaX
    else drag.initialRect.left + drag.initialRect.width
  let newTop := if newTop > imgTop then imgTop else newTop
  let newLeft := if newLeft > imgLeft then imgLeft else newLeft
  let newRight := if newRight < imgRight then imgRight else newRight
  let newBottom := if newBottom < imgBottom then imgBottom else newBottom
  { top := newTop
    left := newLeft
    width := newRight - newLeft
    height := newBottom - newTop }

/-- Clicking the retouch Generate button (App.tsx line 723): the submission is
dropped while the button is disabled, i.e. while `isLoading` is set or the
prompt is blank. -/
def clickGenerate (resp : CollabResult) (s : AppState) : AppState × Bool :=
  if s.isLoading = true ∨ s.prompt.trim = "" then (s, false)
  else handleGenerate resp s

/-- Clicking the Upscale button (App.tsx line 790): the submission is dropped
while the button is disabled, i.e. while `isUpscaling` or `isLoading` is set. -/
def clickUpscale (resp : CollabResult) (s : AppState) : AppState × Bool :=
  if s.isUpscaling = true ∨ s.isLoading = true then (s, false)
  else handleUpscale resp s

/-- The History invariant of spec section 3: the cursor is a valid index when
the history is non-empty, and is the `-1` sentinel exactly when it is empty. -/
def histInv (s : AppState) : Prop :=
  (0 < s.history.length → 0 ≤ s.historyIndex ∧ s.historyIndex < (s.history.length : ℤ)) ∧
  (s.historyIndex = -1 ↔ s.history.length = 0)

instance (s : AppState) : Decidable (histInv s) := by
  unfold histInv
  infer_instance

/-- A baseline concrete state used to build witness inputs. -/
def baseState : AppState :=
  { history := [10, 11, 12]
    historyIndex := 1
    prompt := "make the sky dramatic"
    isLoading := false
    isUpscaling := false
    error := none
    activeTab := Tab.retouch
    crop := none
    completedCrop := none
    expandRect := none
    dragState := none
    retouchReferenceImage := none
    imageDimensions := some { width := 1000, height := 800 } }

/-- Concrete input for the C1 witness. -/
def c1State : AppState := baseState

/-- Concrete drag state for the C3 witness: a south-east drag that started with
the frame exactly on the displayed image. -/
def c3Drag : DragState :=
  { handle := "se"
    initialRect := { top := 0, left := 0, width := 100, height := 100 }
    initialMouseX := 10
    initialMouseY := 15 }

/-- Displayed-image bounding rectangle for the C3 witness. -/
def c3Img : DOMRect := { top := 0, left := 0, width := 100, height := 100 }

/-- Container bounding rectangle for the C3 witness. -/
def c3Container : DOMRect := { top := 0, left := 0, width := 400, height := 300 }

/-- C6 scenario: natural dimensions of a 1000×800 image. -/
def c6Dims : Dimensions := { width := 1000, height := 800 }

/-- C6 scenario: the image is displayed at 500×400 at the container origin. -/
def c6Disp : DOMRect := { top := 0, left := 0, width := 500, height := 400 }

/-- C6 scenario: the container rectangle. -/
def c6Cont : DOMRect := { top := 0, left := 0, width := 800, height := 600 }

/-- C6 scenario: the expand frame after dragging the east handle by +50
displayed pixels from the displayed image bounds. -/
def c6Rect : ExpandRect := { top := 0, left := 0, width := 550, height := 400 }

/-- C6 scenario: the app state with the expand tool active on that image. -/
def c6State : AppState :=
  { baseState with expandRect := some c6Rect, imageDimensions := some c6Dims }

/-- C7 counterexample data: a 1×1 natural image. -/
def c7Natural : Dimensions := { width := 1, height := 1 }

/-- C7 counterexample data: the same image displayed upscaled to 10×10, so the
displayed-to-natural scale factor is 1/10. -/
def c7Displayed : DOMRect := { top := 0, left := 0, width := 10, height := 10 }

/-- C7 witness data: a 1000×800 natural image. -/
def c7WNatural : Dimensions := { width := 1000, height := 800 }

/-- Claim C1: for a history of length N with cursor c (0 ≤ c ≤ N-1), appending
a snapshot yields a history of length c+2 whose first c+1 elements are the
first c+1 elements of the old history, whose last element is the new snapshot,
and whose cursor is c+1; the append also clears the pending crop selection and
the expand rectangle. -/
theorem append_truncates_future (s : AppState) (snap : Snapshot)
    (h0 : 0 ≤ s.historyIndex) (h1 : s.historyIndex < (s.history.length : ℤ)) :
    ((addImageToHistory snap s).history.length : ℤ) = s.historyIndex + 2 ∧
    (addImageToHistory snap s).history.take (s.historyIndex + 1).toNat
      = s.history.take (s.historyIndex + 1).toNat ∧
    (addImageToHistory snap s).history.getLast? = some snap ∧
    (addImageToHistory snap s).historyIndex = s.historyIndex + 1 ∧
    (addImageToHistory snap s).crop = none ∧
    (addImageToHistory snap s).completedCrop = none ∧
    (addImageToHistory snap s).expandRect = none := by
  have hk : (s.historyIndex + 1).toNat ≤ s.history.length := by omega
  have hlen : (s.history.take (s.historyIndex + 1).toNat).length
      = (s.historyIndex + 1).toNat := by
    rw [List.length_take]
    omega
  refine ⟨?_, ?_, ?_, ?_, rfl, rfl, rfl⟩
  · simp only [addImageToHistory, List.length_append, List.length_take,
      List.length_singleton]
    omega
  · simp only [addImageToHistory]
    rw [List.take_append_eq_append_take, hlen, List.take_take]
    simp
  · simp only [addImageToHistory]
    exact List.getLast?_concat _
  · simp only [addImageToHistory, List.length_append, List.length_take,
      List.length_singleton]
    omega

/-- Witness for C1 at a concrete state: history `[10, 11, 12]` with cursor 1,
appending snapshot `99`. -/
theorem append_truncates_future_witness :
    (0 ≤ c1State.historyIndex ∧ c1State.historyIndex < (c1State.history.length : ℤ)) ∧
    (((addImageToHistory 99 c1State).history.length : ℤ) = c1State.historyIndex + 2 ∧
      (addImageToHistory 99 c1State).history.take (c1State.historyIndex + 1).toNat
        = c1State.history.take (c1State.historyIndex + 1).toNat ∧
      (addImageToHistory 99 c1State).history.getLast? = some 99 ∧
      (addImageToHistory 99 c1State).historyIndex = c1State.historyIndex + 1 ∧
      (addImageToHistory 99 c1State).crop = none ∧
      (addImageToHistory 99 c1State).completedCrop = none ∧
      (addImageToHistory 99 c1State).expandRect = none) :=
  ⟨⟨by decide, by decide⟩,
    append_truncates_future c1State 99 (by decide) (by decide)⟩

/-- Claim C4: undo at cursor 0 and redo at cursor length-1 are no-ops, and for
every cursor c with 0 < c ≤ length-1, undo followed by redo returns to the same
cursor with the same history and the same snapshot at the cursor. -/
theorem undo_redo_boundary (s : AppState) :
    (s.historyIndex = 0 → handleUndo s = s) ∧
    (s.historyIndex = (s.history.length : ℤ) - 1 → handleRedo s = s) ∧
    (0 < s.historyIndex → s.historyIndex ≤ (s.history.length : ℤ) - 1 →
      (handleRedo (handleUndo s)).historyIndex = s.historyIndex ∧
      (handleRedo (handleUndo s)).history = s.history ∧
      (handleRedo (handleUndo s)).currentImage = s.currentImage) := by
  refine ⟨?_, ?_, ?_⟩
  · intro h
    simp [handleUndo, canUndo, h]
  · intro h
    simp [handleRedo, canRedo, h]
  · intro h0 h1
    have hu : handleUndo s = { s with historyIndex := s.historyIndex - 1 } := by
      simp [handleUndo, canUndo, h0]
    have hr : handleRedo (handleUndo s) = s := by
      rw [hu]
      have hcr : canRedo { s with historyIndex := s.historyIndex - 1 } = true := by
        simp only [canRedo, decide_eq_true_eq]
        omega
      simp only [handleRedo, hcr, if_true]
      have hidx : s.historyIndex - 1 + 1 = s.historyIndex := by omega
      rw [hidx]
    rw [hr]
    exact ⟨rfl, rfl, rfl⟩

/-- Witness for C4: at cursor 0 undo is a no-op; at history `[10,11,12]` with
cursor 2 redo is a no-op; at cursor 1 undo-then-redo restores the cursor,
history, and current snapshot. -/
theorem undo_redo_boundary_witness :
    (handleUndo { baseState with historyIndex := 0 } = { baseState with historyIndex := 0 }) ∧
    (handleRedo { baseState with historyIndex := 2 } = { baseState with historyIndex := 2 }) ∧
    ((handleRedo (handleUndo baseState)).historyIndex = baseState.historyIndex ∧
      (handleRedo (handleUndo baseState)).history = baseState.history ∧
      (handleRedo (handleUndo baseState)).currentImage = baseState.currentImage) :=
  ⟨(undo_redo_boundary { baseState with historyIndex := 0 }).1 (by decide),
    (undo_redo_boundary { baseState with historyIndex := 2 }).2.1 (by decide),
    (undo_redo_boundary baseState).2.2 (by decide) (by decide)⟩

/-- Claim C5: every history operation (initial upload / replace-all, append,
undo, redo, reset, upload-new) preserves the History invariant:
`0 ≤ index < length` whenever `length > 0`, and `index = -1` iff `length = 0`. -/
theorem history_invariant_preserved (s : AppState) (f : Snapshot)
    (h : histInv s) :
    histInv (handleImageUpload f s) ∧
    histInv (addImageToHistory f s) ∧
    histInv (handleUndo s) ∧
    histInv (handleRedo s) ∧
    histInv (handleReset s) ∧
    histInv (handleUploadNew s) := by
  obtain ⟨hpos, hneg⟩ := h
  refine ⟨?_, ?_, ?_, ?_, ?_, ?_⟩
  · simp [histInv, handleImageUpload]
  · simp only [histInv, addImageToHistory, List.length_append, List.length_take,
      List.length_singleton]
    constructor
    · intro _
      constructor <;> omega
    · constructor <;> omega
  · simp only [histInv, handleUndo, canUndo, decide_eq_true_eq]
    split_ifs with hc
    · dsimp only
      exact ⟨fun _ => by omega, by omega⟩
    · exact ⟨hpos, hneg⟩
  · simp only [histInv, handleRedo, canRedo, decide_eq_true_eq]
    split_ifs with hc
    · dsimp only
      exact ⟨fun _ => by omega, by omega⟩
    · exact ⟨hpos, hneg⟩
  · simp only [histInv, handleReset]
    split_ifs with hc
    · dsimp only
      refine ⟨fun _ => by omega, ?_⟩
      simp only [show ¬((0 : ℤ) = -1) from by omega, false_iff]
      omega
    · exact ⟨hpos, hneg⟩
  · simp [histInv, handleUploadNew]

/-- Witness for C5 at the concrete state with history `[10,11,12]`, cursor 1. -/
theorem history_invariant_preserved_witness :
    histInv baseState ∧
    (histInv (handleImageUpload 99 baseState) ∧
      histInv (addImageToHistory 99 baseState) ∧
      histInv (handleUndo baseState) ∧
      histInv (handleRedo baseState) ∧
      histInv (handleReset baseState) ∧
      histInv (handleUploadNew baseState)) :=
  ⟨by decide, history_invariant_preserved baseState 99 (by decide)⟩

/-- Claim C9: reset on an empty history is a no-op on the whole state; reset at
cursor 0 leaves the history sequence and the cursor unchanged; reset from any
cursor in a non-empty history sets the cursor to 0 without altering the
sequence; and reset is idempotent. -/
theorem reset_idempotent (s : AppState) :
    (s.history = [] → handleReset s = s) ∧
    (s.historyIndex = 0 →
      (handleReset s).history = s.history ∧ (handleReset s).historyIndex = s.historyIndex) ∧
    (handleReset s).history = s.history ∧
    (0 < s.history.length → (handleReset s).historyIndex = 0) ∧
    handleReset (handleReset s) = handleReset s := by
  refine ⟨?_, ?_, ?_, ?_, ?_⟩
  · intro h
    simp [handleReset, h]
  · intro h
    unfold handleReset
    split_ifs <;> simp [h]
  · unfold handleReset
    split_ifs <;> rfl
  · intro h
    simp [handleReset, h]
  · unfold handleReset
    split_ifs <;> simp_all

/-- Witness for C9: reset on the empty state and on concrete non-empty states. -/
theorem reset_idempotent_witness :
    (handleReset (handleUploadNew baseState) = handleUploadNew baseState) ∧
    ((handleReset { baseState with historyIndex := 0 }).history = baseState.history ∧
      (handleReset { baseState with historyIndex := 0 }).historyIndex = 0) ∧
    ((handleReset baseState).history = baseState.history ∧
      (handleReset baseState).historyIndex = 0 ∧
      handleReset (handleReset baseState) = handleReset baseState) :=
  ⟨(reset_idempotent (handleUploadNew baseState)).1 (by decide),
    ⟨((reset_idempotent { baseState with historyIndex := 0 }).2.1 (by decide)).1,
      ((reset_idempotent { baseState with historyIndex := 0 }).2.1 (by decide)).2⟩,
    (reset_idempotent baseState).2.2.1,
    (reset_idempotent baseState).2.2.2.1 (by decide),
    (reset_idempotent baseState).2.2.2.2⟩

/-- Claim C10: undo and redo change only the history cursor — restoring the
cursor restores the whole state, so the snapshot sequence, the pending crop
selection, and the expand rectangle are untouched — whereas append clears the
crop and expand selections. -/
theorem undo_redo_frame (s : AppState) (f : Snapshot) :
    { handleUndo s with historyIndex := s.historyIndex } = s ∧
    { handleRedo s with historyIndex := s.historyIndex } = s ∧
    (addImageToHistory f s).crop = none ∧
    (addImageToHistory f s).completedCrop = none ∧
    (addImageToHistory f s).expandRect = none := by
  refine ⟨?_, ?_, rfl, rfl, rfl⟩
  · unfold handleUndo
    split_ifs <;> cases s <;> rfl
  · unfold handleRedo
    split_ifs <;> cases s <;> rfl

/-- Claim C2: whenever the external collaborator call rejects, each of the five
collaborator-backed actions (retouch-generate, filter-apply, adjustment-apply,
expand-apply, upscale) leaves the history sequence and the cursor exactly as
they were: no snapshot is appended and no entry is changed. -/
theorem failure_leaves_history_unchanged (s : AppState) (msg fp ap : String)
    (disp cont : DOMRect) :
    (handleGenerate (CollabResult.error msg) s).1.history = s.history ∧
    (handleGenerate (CollabResult.error msg) s).1.historyIndex = s.historyIndex ∧
    (handleApplyFilter fp (CollabResult.error msg) s).1.history = s.history ∧
    (handleApplyFilter fp (CollabResult.error msg) s).1.historyIndex = s.historyIndex ∧
    (handleApplyAdjustment ap (CollabResult.error msg) s).1.history = s.history ∧
    (handleApplyAdjustment ap (CollabResult.error msg) s).1.historyIndex = s.historyIndex ∧
    (handleApplyExpand (CollabResult.error msg) disp cont s).1.history = s.history ∧
    (handleApplyExpand (CollabResult.error msg) disp cont s).1.historyIndex = s.historyIndex ∧
    (handleUpscale (CollabResult.error msg) s).1.history = s.history ∧
    (handleUpscale (CollabResult.error msg) s).1.historyIndex = s.historyIndex := by
  refine ⟨?_, ?_, ?_, ?_, ?_, ?_, ?_, ?_, ?_, ?_⟩ <;>
    first
      | (unfold handleGenerate; split_ifs <;> rfl)
      | (unfold handleApplyFilter; split_ifs <;> rfl)
      | (unfold handleApplyAdjustment; split_ifs <;> rfl)
      | (unfold handleUpscale; split_ifs <;> rfl)
      | (unfold handleApplyExpand
         rcases s.currentImage with _ | img <;>
           rcases s.expandRect with _ | rect <;>
             rcases s.imageDimensions with _ | dims <;>
               (first | rfl | (dsimp only; split_ifs <;> rfl)))

/-- Claim C8: a second submission of an action that is already in flight is
ignored: clicking Generate while `isLoading` is set, or Upscale while
`isUpscaling` is set, returns the state unchanged and does not invoke the
external collaborator (so history is untouched). -/
theorem busy_gate_rejects (s : AppState) (resp : CollabResult) :
    (s.isLoading = true → clickGenerate resp s = (s, false)) ∧
    (s.isUpscaling = true → clickUpscale resp s = (s, false)) := by
  constructor
  · intro h
    simp [clickGenerate, h]
  · intro h
    simp [clickUpscale, h]

/-- Witness for C8 at a concrete busy state. -/
theorem busy_gate_rejects_witness :
    clickGenerate (CollabResult.ok 99) { baseState with isLoading := true }
        = ({ baseState with isLoading := true }, false) ∧
    clickUpscale (CollabResult.ok 99) { baseState with isUpscaling := true }
        = ({ baseState with isUpscaling := true }, false) :=
  ⟨(busy_gate_rejects { baseState with isLoading := true } (CollabResult.ok 99)).1 rfl,
    (busy_gate_rejects { baseState with isUpscaling := true } (CollabResult.ok 99)).2 rfl⟩

/-- Claim C3: during an expand drag whose initial rectangle contains the
displayed image's bounding box, every pointer-move — for any of the eight
handles and any pointer position — produces a rectangle satisfying
`top ≤ imgTop`, `left ≤ imgLeft`, `left+width ≥ imgLeft+imgWidth`, and
`top+height ≥ imgTop+imgHeight` relative to the displayed image bounds. -/
theorem expand_drag_containment (drag : DragState) (clientX clientY : ℚ)
    (imgRect containerRect : DOMRect)
    (hhandle : drag.handle ∈ ["n", "s", "e", "w", "ne", "nw", "se", "sw"])
    (htop : drag.initialRect.top ≤ imgRect.top - containerRect.top)
    (hleft : drag.initialRect.left ≤ imgRect.left - containerRect.left)
    (hright : drag.initialRect.left + drag.initialRect.width
      ≥ (imgRect.left - containerRect.left) + imgRect.width)
    (hbottom : drag.initialRect.top + drag.initialRect.height
      ≥ (imgRect.top - containerRect.top) + imgRect.height) :
    (handleMouseMove drag clientX clientY imgRect containerRect).top
        ≤ imgRect.top - containerRect.top ∧
    (handleMouseMove drag clientX clientY imgRect containerRect).left
        ≤ imgRect.left - containerRect.left ∧
    (handleMouseMove drag clientX clientY imgRect containerRect).left
        + (handleMouseMove drag clientX clientY imgRect containerRect).width
        ≥ (imgRect.left - containerRect.left) + imgRect.width ∧
    (handleMouseMove drag clientX clientY imgRect containerRect).top
        + (handleMouseMove drag clientX clientY imgRect containerRect).height
        ≥ (imgRect.top - containerRect.top) + imgRect.height := by
  unfold handleMouseMove
  refine ⟨?_, ?_, ?_, ?_⟩ <;> (dsimp only; split_ifs <;> linarith)

/-- Witness for C3: a south-east drag on a 100×100 image displayed at the
container origin, with the pointer moved 30 right and 40 down. -/
theorem expand_drag_containment_witness :
    (c3Drag.handle ∈ ["n", "s", "e", "w", "ne", "nw", "se", "sw"] ∧
      c3Drag.initialRect.top ≤ c3Img.top - c3Container.top ∧
      c3Drag.initialRect.left ≤ c3Img.left - c3Container.left ∧
      c3Drag.initialRect.left + c3Drag.initialRect.width
        ≥ (c3Img.left - c3Container.left) + c3Img.width ∧
      c3Drag.initialRect.top + c3Drag.initialRect.height
        ≥ (c3Img.top - c3Container.top) + c3Img.height) ∧
    ((handleMouseMove c3Drag 40 55 c3Img c3Container).top ≤ c3Img.top - c3Container.top ∧
      (handleMouseMove c3Drag 40 55 c3Img c3Container).left ≤ c3Img.left - c3Container.left ∧
      (handleMouseMove c3Drag 40 55 c3Img c3Container).left
        + (handleMouseMove c3Drag 40 55 c3Img c3Container).width
        ≥ (c3Img.left - c3Container.left) + c3Img.width ∧
      (handleMouseMove c3Drag 40 55 c3Img c3Container).top
        + (handleMouseMove c3Drag 40 55 c3Img c3Container).height
        ≥ (c3Img.top - c3Container.top) + c3Img.height) :=
  ⟨⟨by decide, by simp [c3Drag, c3Img, c3Container], by simp [c3Drag, c3Img, c3Container],
      by simp [c3Drag, c3Img, c3Container], by simp [c3Drag, c3Img, c3Container]⟩,
    expand_drag_containment c3Drag 40 55 c3Img c3Container (by decide)
      (by simp [c3Drag, c3Img, c3Container]) (by simp [c3Drag, c3Img, c3Container])
      (by simp [c3Drag, c3Img, c3Container]) (by simp [c3Drag, c3Img, c3Container])⟩

/-- Evaluation rule for `jsRound`: `Math.round x = z` whenever
`z ≤ x + 1/2 < z + 1`. -/
theorem jsRound_eq (x : ℚ) (z : ℤ) (h1 : (z : ℚ) ≤ x + 1 / 2)
    (h2 : x + 1 / 2 < z + 1) : jsRound x = (z : ℚ) := by
  unfold jsRound
  norm_cast
  rw [Int.floor_eq_iff]
  exact ⟨by linarith, by linarith⟩

/-- Claim C6: with an image, an expand rectangle, and natural dimensions all
present, expand-apply computes the target natural size as
`round(rect.{width,height} × naturalWidth/displayedWidth)` and reports a
validation error with no collaborator call exactly when the target width does
not exceed the natural width and the target height does not exceed the natural
height; concretely, a 1000×800 image displayed at 500×400 with the east handle
dragged +50 displayed pixels yields target 1100×800 and the action proceeds. -/
theorem expand_validation :
    (∀ (resp : CollabResult) (disp cont : DOMRect) (s : AppState)
        (rect : ExpandRect) (dims : Dimensions),
      s.currentImage.isSome = true → s.expandRect = some rect →
      s.imageDimensions = some dims →
      (((handleApplyExpand resp disp cont s).2 = false ∧
          (handleApplyExpand resp disp cont s).1.error
            = some "Please expand the frame outwards to generate a larger image.") ↔
        (jsRound (rect.width * scaleFactor dims disp) ≤ dims.width ∧
          jsRound (rect.height * scaleFactor dims disp) ≤ dims.height))) ∧
    newDimensions (some c6Dims) (some c6Rect) (some c6Disp) = some (1100, 800) ∧
    (handleApplyExpand (CollabResult.ok 99) c6Disp c6Cont c6State).2 = true := by
  have hw : jsRound ((550 : ℚ) * (1000 / 500)) = ((1100 : ℤ) : ℚ) :=
    jsRound_eq _ _ (by norm_num) (by norm_num)
  have hh : jsRound ((400 : ℚ) * (1000 / 500)) = ((800 : ℤ) : ℚ) :=
    jsRound_eq _ _ (by norm_num) (by norm_num)
  refine ⟨?_, ?_, ?_⟩
  · intro resp disp cont s rect dims hc he hd
    obtain ⟨img, himg⟩ := Option.isSome_iff_exists.mp hc
    simp only [handleApplyExpand, himg, he, hd]
    split_ifs with h
    · simpa [scaleFactor] using h
    · cases resp <;> simp [scaleFactor, h]
  · simp only [newDimensions, c6Dims, c6Rect, c6Disp]
    rw [hw, hh]
    norm_num
  · have e1 : c6State.currentImage = some 11 := rfl
    have e2 : c6State.expandRect = some c6Rect := rfl
    have e3 : c6State.imageDimensions = some c6Dims := rfl
    simp only [handleApplyExpand, e1, e2, e3]
    rw [if_neg]
    simp only [c6Rect, c6Dims, c6Disp]
    rw [hw, hh]
    push_cast
    norm_num

/-- Witness for C6: the iff instantiated at the concrete 1000×800 scenario,
where both sides are false (the frame was enlarged). -/
theorem expand_validation_witness :
    (c6State.currentImage.isSome = true ∧ c6State.expandRect = some c6Rect ∧
      c6State.imageDimensions = some c6Dims) ∧
    (((handleApplyExpand (CollabResult.ok 99) c6Disp c6Cont c6State).2 = false ∧
        (handleApplyExpand (CollabResult.ok 99) c6Disp c6Cont c6State).1.error
          = some "Please expand the frame outwards to generate a larger image.") ↔
      (jsRound (c6Rect.width * scaleFactor c6Dims c6Disp) ≤ c6Dims.width ∧
        jsRound (c6Rect.height * scaleFactor c6Dims c6Disp) ≤ c6Dims.height)) :=
  ⟨⟨rfl, rfl, rfl⟩,
    expand_validation.1 (CollabResult.ok 99) c6Disp c6Cont c6State c6Rect c6Dims
      rfl rfl rfl⟩

/-- Counterexample to claim C7 as stated: for the positive inputs
naturalWidth = naturalHeight = 1, displayedWidth = displayedHeight = 10 and a
displayed rectangle of width and height 4, the scale factor is 1/10,
`round(4 × 1/10) = 0`, and scaling back gives 0, which differs from 4 by more
than 1 pixel. -/
theorem scale_roundtrip_fails :
    0 < c7Natural.width ∧ 0 < c7Natural.height ∧
    0 < c7Displayed.width ∧ 0 < c7Displayed.height ∧
    0 < (4 : ℚ) ∧
    ¬(|jsRound (4 * scaleFactor c7Natural c7Displayed)
        / scaleFactor c7Natural c7Displayed - 4| ≤ 1) := by
  have hs : scaleFactor c7Natural c7Displayed = 1 / 10 := by
    norm_num [scaleFactor, c7Natural, c7Displayed]
  have hr : jsRound ((4 : ℚ) * (1 / 10)) = ((0 : ℤ) : ℚ) :=
    jsRound_eq _ _ (by norm_num) (by norm_num)
  refine ⟨by norm_num [c7Natural], by norm_num [c7Natural],
    by norm_num [c7Displayed], by norm_num [c7Displayed], by norm_num, ?_⟩
  rw [hs, hr]
  rw [show ((((0 : ℤ) : ℚ)) / (1 / 10) - 4) = -4 by norm_num]
  rw [abs_neg, abs_of_nonneg (by norm_num)]
  norm_num

/-- Claim C7 as amended: for positive dimensions and a positive displayed
rectangle, if additionally the scale factor `naturalWidth / displayedWidth` is
at least 1/2 (the image is not displayed at more than twice its natural width),
then converting the rectangle's width and height to natural pixels by scaling
and rounding, and scaling back by the inverse factor, reproduces the original
displayed width and height within ±1 pixel. -/
theorem scale_roundtrip_amended (natural : Dimensions) (displayed : DOMRect)
    (w h : ℚ) (hw : 0 < w) (hh : 0 < h)
    (hnw : 0 < natural.width) (hnh : 0 < natural.height)
    (hdw : 0 < displayed.width) (hdh : 0 < displayed.height)
    (hscale : 1 / 2 ≤ scaleFactor natural displayed) :
    |jsRound (w * scaleFactor natural displayed)
        / scaleFactor natural displayed - w| ≤ 1 ∧
    |jsRound (h * scaleFactor natural displayed)
        / scaleFactor natural displayed - h| ≤ 1 := by
  have hs : 0 < scaleFactor natural displayed := by linarith
  have key : ∀ y : ℚ,
      |jsRound (y * scaleFactor natural displayed)
          / scaleFactor natural displayed - y| ≤ 1 := by
    intro y
    set s := scaleFactor natural displayed with hsdef
    have e : jsRound (y * s) / s - y = (jsRound (y * s) - y * s) / s := by
      rw [sub_div, mul_div_assoc, div_self (ne_of_gt hs), mul_one]
    rw [e, abs_div, abs_of_pos hs, div_le_one hs]
    have h1 : (⌊y * s + 1 / 2⌋ : ℚ) ≤ y * s + 1 / 2 := Int.floor_le _
    have h2 : y * s + 1 / 2 - 1 < (⌊y * s + 1 / 2⌋ : ℚ) := Int.sub_one_lt_floor _
    rw [jsRound, abs_le]
    constructor <;> linarith
  exact ⟨key w, key h⟩

/-- Witness for the amended C7: a 1000×800 image displayed at 500×400
(scale factor 2) and a 550×400 displayed rectangle. -/
theorem scale_roundtrip_amended_witness :
    (0 < (550 : ℚ) ∧ 0 < (400 : ℚ) ∧ 0 < c7WNatural.width ∧ 0 < c7WNatural.height ∧
      0 < c6Disp.width ∧ 0 < c6Disp.height ∧ 1 / 2 ≤ scaleFactor c7WNatural c6Disp) ∧
    (|jsRound (550 * scaleFactor c7WNatural c6Disp)
        / scaleFactor c7WNatural c6Disp - 550| ≤ 1 ∧
      |jsRound (400 * scaleFactor c7WNatural c6Disp)
          / scaleFactor c7WNatural c6Disp - 400| ≤ 1) :=
  ⟨⟨by norm_num, by norm_num, by norm_num [c7WNatural], by norm_num [c7WNatural],
      by norm_num [c6Disp], by norm_num [c6Disp],
      by norm_num [scaleFactor, c7WNatural, c6Disp]⟩,
    scale_roundtrip_amended c7WNatural c6Disp 550 400 (by norm_num) (by norm_num)
      (by norm_num [c7WNatural]) (by norm_num [c7WNatural]) (by norm_num [c6Disp])
      (by norm_num [c6Disp]) (by norm_num [scaleFactor, c7WNatural, c6Disp])⟩

end Nano
